import Mathlib

/-
Verification of the pfal-sim vertical-farm simulator against its
natural-language specification.

The Python sources are shallowly embedded: Python floats are modelled as
exact real (or rational, where decidability helps) arithmetic; functions
that raise exceptions are modelled with Except; dataclasses become
structures.  Each definition mirrors one Python function of the
repository, in source order, and is named after it.
-/

namespace PfalSim

/-- Embedding of clamp from src/pfal_sim/env/light.py:
max(lo, min(hi, x)). -/
def clamp {K : Type} [LinearOrder K] (x lo hi : K) : K :=
  max lo (min hi x)

section Controllers

variable {K : Type} [LinearOrderedField K]

/-- Embedding of dli_controller_step from
src/pfal_sim/control/dli_controller.py.  The bounds are sanitized
(floor forced nonnegative, ceiling forced above the floor), the window
check returns the sanitized floor, otherwise the required average PPFD
is clamped into the sanitized range.  The literal 1e-6 of the source is
1/1000000. -/
def dli_controller_step (dli_target dli_so_far seconds_left_in_window : K)
    (ppfd_minmax : K × K) : K :=
  let ppfd_min : K := max 0 ppfd_minmax.1
  let ppfd_max : K := max ppfd_minmax.2 (ppfd_min + 1 / 1000000)
  let remaining_umol : K := max 0 (dli_target - dli_so_far) * 1000000
  if seconds_left_in_window ≤ 0 then
    ppfd_min
  else
    max ppfd_min (min (remaining_umol / seconds_left_in_window) ppfd_max)

/-- Embedding of dli_controller_step from src/pfal_sim/env/light.py,
which differs from the control-package copy only in using the clamp
helper for the final bound. -/
def light_dli_controller_step (dli_target dli_so_far seconds_left_in_window : K)
    (ppfd_minmax : K × K) : K :=
  let ppfd_min : K := max 0 ppfd_minmax.1
  let ppfd_max : K := max ppfd_minmax.2 (ppfd_min + 1 / 1000000)
  let remaining_umol : K := max 0 (dli_target - dli_so_far) * 1000000
  if seconds_left_in_window ≤ 0 then
    ppfd_min
  else
    clamp (remaining_umol / seconds_left_in_window) ppfd_min ppfd_max

/-- Specification-side decision function for the DLI controller, written
from the amended wording: with sanitized floor m = max(0, ppfd_min) and
ceiling M = max(ppfd_max, m + 1e-6), a closed window returns m, an
already-met target returns m, and otherwise the deficit rate is clamped
into [m, M]. -/
def dli_spec_decision (dli_target dli_so_far seconds_left_in_window : K)
    (ppfd_minmax : K × K) : K :=
  let m : K := max 0 ppfd_minmax.1
  let M : K := max ppfd_minmax.2 (m + 1 / 1000000)
  if seconds_left_in_window ≤ 0 then m
  else if dli_target ≤ dli_so_far then m
  else clamp ((dli_target - dli_so_far) * 1000000 / seconds_left_in_window) m M

end Controllers

section LightModule

variable {K : Type} [LinearOrderedField K]

/-- Embedding of ppf_from_dim from src/pfal_sim/env/light.py. -/
def ppf_from_dim (dim_frac ppf_max : K) (ppe_derate : K := 1) : K :=
  ppf_max * clamp dim_frac 0 1 * clamp ppe_derate 0 1

/-- Embedding of electrical_watts from src/pfal_sim/env/light.py.
Raising ValueError on a non-positive effective photon efficacy is
modelled as Except.error; on the happy path the pair
(watts_in, heat_watts) is returned with heat_watts = watts_in. -/
def electrical_watts (ppf ppe : K) (driver_loss : K := 4 / 100)
    (thermal_derate : K := 0) : Except String (K × K) :=
  let eff_ppe : K := ppe * (1 - clamp thermal_derate 0 (9 / 10))
  if eff_ppe ≤ 0 then
    Except.error "Effective PPE must be positive"
  else
    let lamp_watts : K := ppf / eff_ppe
    let watts_in : K := lamp_watts / (1 - clamp driver_loss 0 (1 / 2))
    Except.ok (watts_in, watts_in)

/-- Embedding of mix_spectrum from src/pfal_sim/env/light.py.  The
Python dict of band weights is an association list; raising ValueError
on a non-positive weight sum is Except.error. -/
def mix_spectrum (ppf_total : K) (spectrum_weights : List (String × K)) :
    Except String (List (String × K)) :=
  let s : K := (spectrum_weights.map Prod.snd).sum
  if s ≤ 0 then
    Except.error "Spectrum weights must sum to a positive value"
  else
    Except.ok (spectrum_weights.map (fun bw => (bw.1, ppf_total * (bw.2 / s))))

/-- Embedding of ppfd_at_canopy from src/pfal_sim/env/light.py; the
ValueError on non-positive area is Except.error. -/
def ppfd_at_canopy (ppf_total utilization lit_area_m2 : K) :
    Except String K :=
  if lit_area_m2 ≤ 0 then
    Except.error "Area must be positive"
  else
    Except.ok (ppf_total * clamp utilization 0 1 / lit_area_m2)

/-- Embedding of integrate_dli from src/pfal_sim/env/light.py; the
ValueError on a non-positive timestep is Except.error, and 1e6 is the
exact 1000000. -/
def integrate_dli (ppfd_series : List K) (dt_seconds : K) :
    Except String K :=
  if dt_seconds ≤ 0 then
    Except.error "dt_seconds must be positive"
  else
    Except.ok (ppfd_series.sum * dt_seconds / 1000000)

end LightModule

/-- Embedding of SafetyController.check from
src/pfal_sim/control/safety_controller.py.  The safe_bounds dict is a
lookup function from variable name to optional (min, max); the values
dict is an association list traversed in order, exactly as the Python
for loop does, accumulating the clamped list and the emergency flag. -/
def safety_check (safe_bounds : String → Option (ℚ × ℚ))
    (values : List (String × ℚ)) : List (String × ℚ) × Bool :=
  values.foldl
    (fun acc vx =>
      match safe_bounds vx.1 with
      | some lohi =>
          if vx.2 < lohi.1 ∨ lohi.2 < vx.2 then
            (acc.1 ++ [(vx.1, max lohi.1 (min vx.2 lohi.2))], true)
          else
            (acc.1 ++ [vx], acc.2)
      | none => (acc.1 ++ [vx], acc.2))
    ([], false)

/-- Per-entry clamping action of the safety controller, written from
the specification wording: a variable with no configured bound passes
through; a value below the lower bound is replaced by it; a value above
the upper bound is replaced by it; otherwise the value is unchanged. -/
def safety_spec_clamp (safe_bounds : String → Option (ℚ × ℚ))
    (vx : String × ℚ) : String × ℚ :=
  match safe_bounds vx.1 with
  | none => vx
  | some lohi =>
      if vx.2 < lohi.1 then (vx.1, lohi.1)
      else if lohi.2 < vx.2 then (vx.1, lohi.2)
      else vx

/-- Decidable out-of-bounds test for one entry of the values dict. -/
def safety_out_of_bounds (safe_bounds : String → Option (ℚ × ℚ))
    (vx : String × ℚ) : Bool :=
  match safe_bounds vx.1 with
  | none => false
  | some lohi => decide (vx.2 < lohi.1 ∨ lohi.2 < vx.2)

/-- Return value of CO2Controller.step in
src/pfal_sim/control/co2_controller.py. -/
inductive CO2Action : Type
  | LOCKOUT : CO2Action
  | INJECT_ON : CO2Action
  | INJECT_OFF : CO2Action
deriving DecidableEq, Repr

/-- Embedding of the CO2Controller state from
src/pfal_sim/control/co2_controller.py. -/
structure CO2Controller : Type where
  setpoint_ppm : ℚ
  hard_ceiling_ppm : ℚ
  door_open_lockout : Bool
  injecting : Bool
deriving DecidableEq, Repr

/-- Embedding of CO2Controller.step from
src/pfal_sim/control/co2_controller.py: the sequential early-return
ifs of the source, returning the action together with the mutated
controller (only the injecting flag changes). -/
def CO2Controller.step (c : CO2Controller) (current_ppm : ℚ)
    (lights_on door_open : Bool) : CO2Action × CO2Controller :=
  if c.door_open_lockout && door_open then
    (CO2Action.LOCKOUT, { c with injecting := false })
  else if !lights_on then
    (CO2Action.INJECT_OFF, { c with injecting := false })
  else if c.hard_ceiling_ppm ≤ current_ppm then
    (CO2Action.INJECT_OFF, { c with injecting := false })
  else if current_ppm < c.setpoint_ppm then
    (CO2Action.INJECT_ON, { c with injecting := true })
  else
    (CO2Action.INJECT_OFF, { c with injecting := false })

/-- Specification-side decision table for the CO2 controller, written
from the priority order stated in the spec: door-open lockout (if
enabled) forces LOCKOUT; else lights-off forces INJECT_OFF; else CO2 at
or above the hard ceiling forces INJECT_OFF; else CO2 below the
setpoint gives INJECT_ON; else INJECT_OFF. -/
def co2_spec_decision (setpoint hard_ceiling : ℚ) (lockout_enabled : Bool)
    (current_ppm : ℚ) (lights_on door_open : Bool) : CO2Action :=
  if lockout_enabled && door_open then CO2Action.LOCKOUT
  else if !lights_on then CO2Action.INJECT_OFF
  else if hard_ceiling ≤ current_ppm then CO2Action.INJECT_OFF
  else if current_ppm < setpoint then CO2Action.INJECT_ON
  else CO2Action.INJECT_OFF

/-! Crop growth physics, embedding src/pfal_sim/crop/spinach.py over ℝ
(Real.exp stands for math.exp; every real is finite, so the
math.isfinite guard of f_T is vacuously true here). -/

/-- ALPHA from src/pfal_sim/crop/spinach.py. -/
def ALPHA : ℝ := 1

/-- DLI_OPT from src/pfal_sim/crop/spinach.py. -/
def DLI_OPT : ℝ × ℝ := (10, 15)

/-- T_OPT from src/pfal_sim/crop/spinach.py. -/
def T_OPT : ℝ := 20

/-- T_WIDTH from src/pfal_sim/crop/spinach.py. -/
def T_WIDTH : ℝ := 5

/-- VPD_OPT from src/pfal_sim/crop/spinach.py. -/
noncomputable def VPD_OPT : ℝ × ℝ := (6 / 10, 12 / 10)

/-- CO2_OPT from src/pfal_sim/crop/spinach.py. -/
def CO2_OPT : ℝ := 1000

/-- Embedding of f_DLI from src/pfal_sim/crop/spinach.py. -/
noncomputable def f_DLI (DLI : ℝ) : ℝ :=
  if DLI < DLI_OPT.1 then max 0 (DLI / DLI_OPT.1)
  else if DLI_OPT.2 < DLI then max 0 (1 - (1 / 10) * (DLI - DLI_OPT.2))
  else 1

/-- Embedding of f_T from src/pfal_sim/crop/spinach.py: a bell curve
centred at T_OPT, with the exponent floored at -700 as in the source
(the isfinite branch cannot fire over ℝ). -/
noncomputable def f_T (T : ℝ) : ℝ :=
  Real.exp (max (-((T - T_OPT) ^ 2) / (2 * T_WIDTH ^ 2)) (-700))

/-- Embedding of f_VPD from src/pfal_sim/crop/spinach.py. -/
noncomputable def f_VPD (VPD : ℝ) : ℝ :=
  if VPD < VPD_OPT.1 then max 0 (VPD / VPD_OPT.1)
  else if VPD_OPT.2 < VPD then max 0 (1 - (1 / 2) * (VPD - VPD_OPT.2))
  else 1

/-- Embedding of f_CO2 from src/pfal_sim/crop/spinach.py. -/
noncomputable def f_CO2 (CO2 : ℝ) : ℝ :=
  min 1 (CO2 / CO2_OPT)

/-- Embedding of daily_biomass_increment from
src/pfal_sim/crop/spinach.py. -/
noncomputable def daily_biomass_increment (DLI T_mean VPD_mean CO2_mean : ℝ) : ℝ :=
  ALPHA * f_DLI DLI * f_T T_mean * f_VPD VPD_mean * f_CO2 CO2_mean

/-! Room physics, embedding src/pfal_sim/env/room.py over ℝ. -/

/-- Embedding of vpd_kpa from src/pfal_sim/env/room.py. -/
noncomputable def vpd_kpa (T RH : ℝ) : ℝ :=
  let es : ℝ := (6108 / 10000) * Real.exp ((1727 / 100) * T / (T + 2373 / 10))
  let ea : ℝ := RH * es
  max 0 (es - ea)

/-- Embedding of RoomBox._n_sat from src/pfal_sim/env/room.py.  The
try/except returns 0.0 exactly when the Python body raises, which over
exact reals happens only at the two division-by-zero temperatures
T = -237.3 (inside the exp argument) and T = -273.15 (the
denominator); the guard makes those cases explicit. -/
noncomputable def n_sat (V T : ℝ) : ℝ :=
  if T + 2373 / 10 = 0 ∨ T + 27315 / 100 = 0 then 0
  else (6108 / 10) * Real.exp ((1727 / 100) * T / (T + 2373 / 10)) * V /
    ((8314 / 1000) * (T + 27315 / 100))

/-- Embedding of the RoomBox dataclass state and parameters from
src/pfal_sim/env/room.py (construction runs through mkRoomBox below,
which performs the __post_init__ adjustment). -/
structure RoomBox : Type where
  T_air : ℝ
  T_nutr : ℝ
  CO2_ppm : ℝ
  n_vapor : ℝ
  V_air : ℝ
  UA : ℝ
  C_air : ℝ
  M_air : ℝ
  M_v : ℝ
  V_nutr : ℝ
  C_nutr : ℝ
  g_c : ℝ

/-- Embedding of RoomBox construction including __post_init__ from
src/pfal_sim/env/room.py: when the n_vapor argument is 0.0 (its
default) the vapor content is initialized to RH0 = 0.7 times the
saturation vapor moles at the initial air temperature. -/
noncomputable def mkRoomBox (T_air T_nutr : ℝ) (CO2_ppm : ℝ := 900)
    (n_vapor : ℝ := 0) (V_air : ℝ := 100) (UA : ℝ := 200)
    (C_air : ℝ := 120000) (M_air : ℝ := 120) (M_v : ℝ := 18)
    (V_nutr : ℝ := 2 / 10) (C_nutr : ℝ := 836) (g_c : ℝ := 2) : RoomBox :=
  let r : RoomBox :=
    ⟨T_air, T_nutr, CO2_ppm, n_vapor, V_air, UA, C_air, M_air, M_v,
      V_nutr, C_nutr, g_c⟩
  if r.n_vapor = 0 then { r with n_vapor := (7 / 10) * n_sat r.V_air r.T_air }
  else r

/-- Embedding of RoomBox._RH from src/pfal_sim/env/room.py:
min(max(n_vapor / n_sat, 0.0), 1.0). -/
noncomputable def RoomBox.RH (r : RoomBox) : ℝ :=
  min (max (r.n_vapor / n_sat r.V_air r.T_air) 0) 1

/-- Keyword arguments of RoomBox.update from src/pfal_sim/env/room.py,
with their source defaults. -/
structure UpdateIn : Type where
  Q_led : ℝ
  Q_people : ℝ
  Q_equip : ℝ
  Q_HVAC_sens : ℝ
  Q_HVAC_lat : ℝ
  T_out : ℝ
  E_canopy : Option ℝ := none
  E_solution : ℝ := 0
  infiltration : ℝ := 0
  LAI : ℝ := 1
  dt : ℝ := 60
  CO2_inj : ℝ := 0
  PPFD : ℝ := 0
  canopy_area : ℝ := 1
  CO2_leaks : ℝ := 0

/-- Embedding of RoomBox.update from src/pfal_sim/env/room.py, in
source order: sensible heat balance and runaway clamp for T_air, then
the solution temperature and its clamp (using the already-updated
T_air), the transpiration default E_canopy = g_c * vpd * LAI computed
from the updated T_air and the current vapor content, the latent
balance floored at zero vapor, and the Michaelis-Menten CO2 balance
floored at zero ppm.  Over ℝ the isfinite checks of the source are
vacuous, so each runaway condition is T < -10 or T > 50. -/
noncomputable def RoomBox.update (r : RoomBox) (u : UpdateIn) : RoomBox :=
  let dT : ℝ := (u.Q_led + u.Q_people + u.Q_equip - u.Q_HVAC_sens -
    r.UA * (r.T_air - u.T_out)) * u.dt / r.C_air
  let T_air1 : ℝ := r.T_air + dT
  let T_air2 : ℝ := if T_air1 < -10 ∨ 50 < T_air1
    then min (max T_air1 0) 40 else T_air1
  let UA_nutr : ℝ := 20
  let dT_nutr : ℝ := (UA_nutr * (T_air2 - r.T_nutr) + u.E_solution) *
    u.dt / r.C_nutr
  let T_nutr1 : ℝ := r.T_nutr + dT_nutr
  let T_nutr2 : ℝ := if T_nutr1 < -10 ∨ 50 < T_nutr1
    then min (max T_nutr1 0) 40 else T_nutr1
  let E_can : ℝ := match u.E_canopy with
    | some e => e
    | none =>
        r.g_c * vpd_kpa T_air2
          (min (max (r.n_vapor / n_sat r.V_air T_air2) 0) 1) * u.LAI
  let dn : ℝ := (E_can + u.E_solution - u.Q_HVAC_lat / r.M_v -
    u.infiltration) * u.dt / r.M_v
  let n_vapor2 : ℝ := max (r.n_vapor + dn) 0
  let Vmax : ℝ := (8 / 10) * u.canopy_area
  let Km : ℝ := 200
  let Kc : ℝ := 800
  let uptake_umol_s : ℝ := Vmax * u.PPFD / (Km + u.PPFD) *
    (r.CO2_ppm / (Kc + r.CO2_ppm))
  let uptake_mg_s : ℝ := uptake_umol_s * (44 / 1000000)
  let dCO2_mg : ℝ := (u.CO2_inj - uptake_mg_s - u.CO2_leaks) * u.dt
  let mg_per_ppm : ℝ := (196 / 100) * r.V_air
  let dCO2_ppm : ℝ := dCO2_mg / mg_per_ppm
  let CO2_2 : ℝ := max (r.CO2_ppm + dCO2_ppm) 0
  { r with
    T_air := T_air2
    T_nutr := T_nutr2
    n_vapor := n_vapor2
    CO2_ppm := CO2_2 }

/-! The light fixture wrapper and the central simulation loop,
embedding src/pfal_sim/env/light.py (LightFixture) and
src/pfal_sim/sim/sim_runner.py. -/

/-- Embedding of utilization_factor from src/pfal_sim/env/light.py. -/
noncomputable def utilization_factor (LAI : ℝ) (wall_reflectance : ℝ := 85 / 100)
    (beam_spread_deg : ℝ := 120) : ℝ :=
  let wall_term : ℝ := 55 / 100 + (45 / 100) * clamp wall_reflectance 0 (98 / 100)
  let lai_term : ℝ := 1 - Real.exp (-(7 / 10) * max LAI 0)
  let beam_term : ℝ := 1 - (1 / 10) * |120 - clamp beam_spread_deg 60 150| / 60
  clamp (wall_term * lai_term * beam_term) (30 / 100) (98 / 100)

/-- Embedding of the LightFixture dataclass from
src/pfal_sim/env/light.py. -/
structure LightFixture : Type where
  ppf_max : ℝ
  ppe : ℝ
  area_m2 : ℝ
  spectrum : List (String × ℝ)
  driver_loss : ℝ := 4 / 100
  thermal_derate : ℝ := 0
  wall_reflectance : ℝ := 85 / 100
  beam_spread_deg : ℝ := 120

/-- Fields of the dict returned by LightFixture.step in
src/pfal_sim/env/light.py. -/
structure FixtureOut : Type where
  ppf_total : ℝ
  ppfd : ℝ
  u : ℝ
  bands_ppf : List (String × ℝ)
  watts_in : ℝ
  heat_watts : ℝ

/-- Embedding of LightFixture.step from src/pfal_sim/env/light.py; any
ValueError raised by the helpers it calls propagates as Except.error. -/
noncomputable def LightFixture.step (fx : LightFixture) (dim_frac LAI : ℝ) :
    Except String FixtureOut := do
  let ppf : ℝ := ppf_from_dim dim_frac fx.ppf_max
  let bands ← mix_spectrum ppf fx.spectrum
  let u : ℝ := utilization_factor LAI fx.wall_reflectance fx.beam_spread_deg
  let ppfd ← ppfd_at_canopy ppf u fx.area_m2
  let wh ← electrical_watts ppf fx.ppe fx.driver_loss fx.thermal_derate
  pure ⟨ppf, ppfd, u, bands, wh.1, wh.2⟩

/-- Arithmetic mean of a list of reals, embedding numpy.mean as used by
src/pfal_sim/sim/sim_runner.py on slices of the logged records. -/
noncomputable def listMean (l : List ℝ) : ℝ := l.sum / l.length

/-- One flattened record appended by SimulationLogger.log_step
(src/pfal_sim/data/logger.py) for each step of the loop in
src/pfal_sim/sim/sim_runner.py; the logged datetime is kept as whole
minutes since the fixed start instant, and the actuator sub-dict is
flattened into the two act fields as the logger does. -/
structure SimRecord : Type where
  time : ℕ
  PPFD : ℝ
  DLI_so_far : ℝ
  T : ℝ
  RH : ℝ
  VPD : ℝ
  CO2 : ℝ
  EC : ℝ
  pH : ℝ
  act_LED : String
  act_HVAC : String
  LED_W : ℝ
  HVAC_W : ℝ

/-- Configuration of the simulation loop in
src/pfal_sim/sim/sim_runner.py: the module-level constants that
parameterize the loop body. -/
structure SimConfig : Type where
  fixture : LightFixture
  LAI : ℝ
  T_set : ℝ
  DLI_target : ℝ
  ppfd_minmax : ℝ × ℝ
  light_hours : ℕ
  dt_min : ℕ

/-- Mutable state carried across iterations of the loop in
src/pfal_sim/sim/sim_runner.py: the room, the intra-day PPFD series and
DLI accumulator, the running biomass total, the logger records (most
recent first) and the step counter. -/
structure SimState : Type where
  room : RoomBox
  ppfd_series : List ℝ
  DLI_so_far : ℝ
  biomass_fw : ℝ
  records : List SimRecord
  step : ℕ

/-- Embedding of one iteration of the simulation loop of
src/pfal_sim/sim/sim_runner.py (lines 55-139): photoperiod test, the
DLI controller (the copy imported from env/light.py) and dimming
computation, the fixture step, bang-bang HVAC, the room update with the
literal arguments of the source, the DLI integral over the PPFD series,
the logged record, and the end-of-day biomass increment from the means
of the last day of records, with the DLI accumulator and PPFD series
reset.  The print calls of the source produce no state and are not
modelled; records are consed, so the take below reads the latest day. -/
noncomputable def simStep (cfg : SimConfig) (st : SimState) :
    Except String SimState := do
  let stepsPerDay : ℕ := 24 * (60 / cfg.dt_min)
  let t_in_day : ℕ := (st.step % stepsPerDay) * cfg.dt_min * 60
  let window_seconds : ℕ := cfg.light_hours * 3600
  let dim_frac : ℝ ←
    if t_in_day < window_seconds then do
      let seconds_left : ℕ := window_seconds - t_in_day
      let needed_ppfd : ℝ := light_dli_controller_step cfg.DLI_target
        st.DLI_so_far (seconds_left : ℝ) cfg.ppfd_minmax
      let full ← cfg.fixture.step 1 cfg.LAI
      pure (min 1 (needed_ppfd / max full.ppfd (1 / 1000000)))
    else
      pure 0
  let out ← cfg.fixture.step dim_frac cfg.LAI
  let Q_HVAC_sens : ℝ :=
    if cfg.T_set + 1 / 2 < st.room.T_air then -10
    else if st.room.T_air < cfg.T_set - 1 / 2 then 10
    else 0
  let room2 : RoomBox := st.room.update
    { Q_led := out.heat_watts
      Q_people := 0
      Q_equip := 0
      Q_HVAC_sens := Q_HVAC_sens
      Q_HVAC_lat := 0
      T_out := 18
      E_canopy := none
      E_solution := 0
      infiltration := 0
      LAI := cfg.LAI
      dt := (cfg.dt_min : ℝ) * 60
      CO2_inj := 0
      PPFD := out.ppfd
      canopy_area := cfg.fixture.area_m2
      CO2_leaks := 0 }
  let series2 : List ℝ := out.ppfd :: st.ppfd_series
  let dli2 : ℝ := series2.sum * ((cfg.dt_min : ℝ) * 60) / 1000000
  let r0 : SimRecord :=
    { time := st.step * cfg.dt_min
      PPFD := out.ppfd
      DLI_so_far := dli2
      T := room2.T_air
      RH := room2.RH
      VPD := vpd_kpa room2.T_air room2.RH
      CO2 := room2.CO2_ppm
      EC := 3 / 2
      pH := 6
      act_LED := if 0 < dim_frac then "ON" else "OFF"
      act_HVAC := if Q_HVAC_sens < 0 then "COOL"
        else if 0 < Q_HVAC_sens then "HEAT" else "IDLE"
      LED_W := out.watts_in
      HVAC_W := |Q_HVAC_sens| }
  let records2 : List SimRecord := r0 :: st.records
  if (st.step + 1) % stepsPerDay == 0 then
    let lastDay : List SimRecord := records2.take stepsPerDay
    let mean_T : ℝ := listMean (lastDay.map SimRecord.T)
    let mean_VPD : ℝ := listMean (lastDay.map SimRecord.VPD)
    let mean_CO2 : ℝ := listMean (lastDay.map SimRecord.CO2)
    pure { room := room2, ppfd_series := [], DLI_so_far := 0,
           biomass_fw := st.biomass_fw +
             daily_biomass_increment dli2 mean_T mean_VPD mean_CO2,
           records := records2, step := st.step + 1 }
  else
    pure { room := room2, ppfd_series := series2, DLI_so_far := dli2,
           biomass_fw := st.biomass_fw, records := records2,
           step := st.step + 1 }

/-- Iterated simulation loop of src/pfal_sim/sim/sim_runner.py: run n
steps from the given state, propagating any configuration error. -/
noncomputable def runSim (cfg : SimConfig) (st : SimState) :
    ℕ → Except String SimState
  | 0 => Except.ok st
  | n + 1 => (simStep cfg st).bind (fun st2 => runSim cfg st2 n)

/-! Theorems settling the claims. -/

/-- C3: for every setpoint, hard ceiling, lockout configuration,
injecting flag and every combination of door_open, lights_on and
current_ppm, CO2Controller.step returns exactly the action given by the
stated priority order: door-open lockout (if enabled) gives LOCKOUT;
else lights off gives INJECT_OFF; else current_ppm at or above the hard
ceiling gives INJECT_OFF; else current_ppm below the setpoint gives
INJECT_ON; else INJECT_OFF (so there is no hysteresis band at the
setpoint: current_ppm equal to the setpoint turns injection off). -/
theorem c3_co2_controller_priority (c : CO2Controller) (current_ppm : ℚ)
    (lights_on door_open : Bool) :
    (c.step current_ppm lights_on door_open).1 =
      co2_spec_decision c.setpoint_ppm c.hard_ceiling_ppm
        c.door_open_lockout current_ppm lights_on door_open := by
  unfold CO2Controller.step co2_spec_decision
  split_ifs <;> rfl

/-- C4 counterexample: with a negative configured floor and a closed
window, dli_controller_step returns the sanitized floor 0 and not the
configured floor -5, so the claim that the configured PPFD floor is
returned whenever seconds_left_in_window ≤ 0 fails as stated. -/
theorem c4_configured_floor_counterexample :
    dli_controller_step (10 : ℚ) 0 0 (-5, 100) = 0 ∧
      dli_controller_step (10 : ℚ) 0 0 (-5, 100) ≠ -5 := by
  constructor <;> norm_num [dli_controller_step]

/-- C4 amended: dli_controller_step first sanitizes its range to the
floor m = max(0, ppfd_min) and ceiling M = max(ppfd_max, m + 1e-6);
whenever seconds_left_in_window ≤ 0 it returns m regardless of target
and accumulated DLI, whenever dli_so_far ≥ dli_target it also returns
m, and otherwise it returns (dli_target - dli_so_far) * 1e6 /
seconds_left_in_window clamped into [m, M]. -/
theorem c4_dli_controller_sanitized_decision (dli_target dli_so_far
    seconds_left_in_window : ℚ) (ppfd_minmax : ℚ × ℚ) :
    dli_controller_step dli_target dli_so_far seconds_left_in_window
        ppfd_minmax =
      dli_spec_decision dli_target dli_so_far seconds_left_in_window
        ppfd_minmax := by
  simp only [dli_controller_step, dli_spec_decision, clamp]
  by_cases h1 : seconds_left_in_window ≤ 0
  · simp only [if_pos h1]
  · simp only [if_neg h1]
    by_cases h2 : dli_target ≤ dli_so_far
    · rw [if_pos h2]
      have hz : (0 : ℚ) ⊔ (dli_target - dli_so_far) = 0 :=
        max_eq_left (by linarith)
      rw [hz, zero_mul, zero_div]
      have hM : (0 : ℚ) ⊔ ppfd_minmax.1 ≤
          ppfd_minmax.2 ⊔ ((0 : ℚ) ⊔ ppfd_minmax.1 + 1 / 1000000) :=
        le_trans (by linarith) (le_max_right _ _)
      rw [min_eq_left (le_trans (le_max_left 0 _) hM)]
      exact max_eq_left (le_max_left _ _)
    · rw [if_neg h2]
      have hz : (0 : ℚ) ⊔ (dli_target - dli_so_far) =
          dli_target - dli_so_far :=
        max_eq_right (by linarith)
      rw [hz, min_comm]

/-- C9: dli_controller_step sanitizes its PPFD range before use: for
every input (including a negative floor or an inverted range) the
returned value lies in [max(0, ppfd_min), max(ppfd_max,
max(0, ppfd_min) + 1e-6)]; the env/light.py copy of the controller
computes the same value; and with a non-positive configured floor and a
closed window it returns 0, not the configured floor. -/
theorem c9_dli_controller_sanitized_range (dli_target dli_so_far
    seconds_left_in_window ppfd_min ppfd_max : ℚ) :
    (max 0 ppfd_min ≤ dli_controller_step dli_target dli_so_far
        seconds_left_in_window (ppfd_min, ppfd_max) ∧
      dli_controller_step dli_target dli_so_far seconds_left_in_window
          (ppfd_min, ppfd_max) ≤
        max ppfd_max (max 0 ppfd_min + 1 / 1000000)) ∧
    light_dli_controller_step dli_target dli_so_far seconds_left_in_window
        (ppfd_min, ppfd_max) =
      dli_controller_step dli_target dli_so_far seconds_left_in_window
        (ppfd_min, ppfd_max) ∧
    (seconds_left_in_window ≤ 0 → ppfd_min ≤ 0 →
      dli_controller_step dli_target dli_so_far seconds_left_in_window
        (ppfd_min, ppfd_max) = 0) := by
  have hmM : max 0 ppfd_min ≤ max ppfd_max (max 0 ppfd_min + 1 / 1000000) :=
    le_trans (by linarith) (le_max_right ppfd_max _)
  refine ⟨?_, ?_, ?_⟩
  · unfold dli_controller_step
    split_ifs with h1
    · exact ⟨le_refl _, hmM⟩
    · constructor
      · exact le_max_left _ _
      · exact max_le hmM (min_le_right _ _)
  · simp only [dli_controller_step, light_dli_controller_step, clamp]
    split_ifs with h1
    · rfl
    · rw [min_comm]
  · intro h1 h2
    simp only [dli_controller_step]
    rw [if_pos h1]
    exact max_eq_left h2

/-- C9 witness: at target 10, nothing accumulated, a closed window and
the inverted range (-5, 100) the controller output is 0 and lies in the
sanitized range [0, 100]. -/
theorem c9_dli_controller_sanitized_range_witness :
    dli_controller_step (10 : ℚ) 0 0 (-5, 100) = 0 ∧
      max 0 (-5 : ℚ) ≤ dli_controller_step (10 : ℚ) 0 0 (-5, 100) ∧
      dli_controller_step (10 : ℚ) 0 0 (-5, 100) ≤
        max 100 (max 0 (-5 : ℚ) + 1 / 1000000) := by
  refine ⟨?_, ?_, ?_⟩
  · exact (c9_dli_controller_sanitized_range 10 0 0 (-5) 100).2.2
      (by norm_num) (by norm_num)
  · exact (c9_dli_controller_sanitized_range 10 0 0 (-5) 100).1.1
  · exact (c9_dli_controller_sanitized_range 10 0 0 (-5) 100).1.2

/-- C6: raises-iff for invalid light configuration: electrical_watts
returns normally exactly when the effective photon efficacy
ppe * (1 - clamped thermal derate) is positive, mix_spectrum returns
normally exactly when the spectral weights sum to a positive value, and
ppfd_at_canopy returns normally exactly when the illuminated area is
positive; in every other case each raises (Except.error), and the check
happens before any output is computed. -/
theorem c6_light_config_raises_iff :
    (∀ ppf ppe driver_loss thermal_derate : ℚ,
      (∃ w, electrical_watts ppf ppe driver_loss thermal_derate =
        Except.ok w) ↔ 0 < ppe * (1 - clamp thermal_derate 0 (9 / 10))) ∧
    (∀ (ppf_total : ℚ) (spectrum_weights : List (String × ℚ)),
      (∃ out, mix_spectrum ppf_total spectrum_weights = Except.ok out) ↔
        0 < (spectrum_weights.map Prod.snd).sum) ∧
    (∀ ppf_total utilization lit_area_m2 : ℚ,
      (∃ x, ppfd_at_canopy ppf_total utilization lit_area_m2 =
        Except.ok x) ↔ 0 < lit_area_m2) := by
  refine ⟨?_, ?_, ?_⟩
  · intro ppf ppe driver_loss thermal_derate
    simp only [electrical_watts]
    split_ifs with h
    · refine iff_of_false ?_ (not_lt.mpr h)
      rintro ⟨w, hw⟩
      exact hw
    · exact iff_of_true ⟨_, rfl⟩ (not_le.mp h)
  · intro ppf_total spectrum_weights
    simp only [mix_spectrum]
    split_ifs with h
    · refine iff_of_false ?_ (not_lt.mpr h)
      rintro ⟨out, hw⟩
      exact hw
    · exact iff_of_true ⟨_, rfl⟩ (not_le.mp h)
  · intro ppf_total utilization lit_area_m2
    simp only [ppfd_at_canopy]
    split_ifs with h
    · refine iff_of_false ?_ (not_lt.mpr h)
      rintro ⟨x, hw⟩
      exact hw
    · exact iff_of_true ⟨_, rfl⟩ (not_le.mp h)

/-- C5: integrate_dli is homogeneous in its series argument: for every
positive dt, scaling every sample of the series by k scales the
returned DLI by k; and integrating a constant series of value p whose
n samples cover H hours (n * dt = H * 3600 seconds) yields exactly
p * H * 3600 / 1e6. -/
theorem c5_integrate_dli_linear :
    (∀ (k dt r : ℚ) (s : List ℚ), 0 < dt →
      integrate_dli s dt = Except.ok r →
      integrate_dli (s.map fun x => k * x) dt = Except.ok (k * r)) ∧
    (∀ (p dt H : ℚ) (n : ℕ), 0 < dt → (n : ℚ) * dt = H * 3600 →
      integrate_dli (List.replicate n p) dt =
        Except.ok (p * H * 3600 / 1000000)) := by
  constructor
  · intro k dt r s hdt hok
    unfold integrate_dli at hok ⊢
    rw [if_neg (not_le.mpr hdt)] at hok ⊢
    have hsum : (s.map fun x => k * x).sum = k * s.sum := by
      have := List.sum_map_mul_left s id k
      simpa using this
    have hr : s.sum * dt / 1000000 = r := by
      simpa using hok
    rw [hsum]
    congr 1
    rw [← hr]
    ring
  · intro p dt H n hdt hcover
    unfold integrate_dli
    rw [if_neg (not_le.mpr hdt)]
    congr 1
    rw [List.sum_replicate, nsmul_eq_mul]
    have : (n : ℚ) * p * dt = p * (H * 3600) := by
      rw [mul_comm (n : ℚ) p, mul_assoc, hcover]
    rw [this]
    ring

/-- C5 witness: a constant 200 μmol PPFD series of 720 one-minute
samples covers 12 hours, and its integral is exactly 8.64 = 216/25
mol per square metre, within the stated 0.01 tolerance. -/
theorem c5_integrate_dli_linear_witness :
    integrate_dli (List.replicate 720 (200 : ℚ)) 60 =
        Except.ok (216 / 25 : ℚ) ∧
      |(216 / 25 : ℚ) - 864 / 100| ≤ 1 / 100 := by
  constructor
  · have h := c5_integrate_dli_linear.2 200 60 12 720 (by norm_num)
      (by norm_num)
    rw [h]
    norm_num
  · norm_num

/-- Per-entry result of the loop body in SafetyController.check, used
to characterize the foldl of safety_check. -/
def safety_code_clamp (safe_bounds : String → Option (ℚ × ℚ))
    (vx : String × ℚ) : String × ℚ :=
  match safe_bounds vx.1 with
  | none => vx
  | some lohi =>
      if vx.2 < lohi.1 ∨ lohi.2 < vx.2 then (vx.1, max lohi.1 (min vx.2 lohi.2))
      else vx

/-- Characterization of safety_check: the clamped list is the per-entry
clamp of each value in order, and the emergency flag is the disjunction
of the per-entry out-of-bounds tests. -/
theorem safety_check_eq (b : String → Option (ℚ × ℚ))
    (values : List (String × ℚ)) :
    safety_check b values =
      (values.map (safety_code_clamp b),
        values.any (safety_out_of_bounds b)) := by
  have key : ∀ (vs : List (String × ℚ)) (acc : List (String × ℚ) × Bool),
      vs.foldl
        (fun acc vx =>
          match b vx.1 with
          | some lohi =>
              if vx.2 < lohi.1 ∨ lohi.2 < vx.2 then
                (acc.1 ++ [(vx.1, max lohi.1 (min vx.2 lohi.2))], true)
              else
                (acc.1 ++ [vx], acc.2)
          | none => (acc.1 ++ [vx], acc.2)) acc =
        (acc.1 ++ vs.map (safety_code_clamp b),
          acc.2 || vs.any (safety_out_of_bounds b)) := by
    intro vs
    induction vs with
    | nil => intro acc; simp
    | cons hd tl ih =>
        intro acc
        simp only [List.foldl_cons, List.map_cons, List.any_cons]
        rw [ih]
        cases hb : b hd.1 with
        | none =>
            simp [safety_code_clamp, safety_out_of_bounds, hb]
        | some lohi =>
            by_cases hc : hd.2 < lohi.1 ∨ lohi.2 < hd.2
            · simp [safety_code_clamp, safety_out_of_bounds, hb, hc]
            · simp [safety_code_clamp, safety_out_of_bounds, hb, hc]
  have hmain := key values ([], false)
  simpa [safety_check] using hmain

/-- Unfolding of safety_spec_clamp for an unbounded variable. -/
theorem spec_clamp_none (b : String → Option (ℚ × ℚ)) (vx : String × ℚ)
    (h : b vx.1 = none) : safety_spec_clamp b vx = vx := by
  simp [safety_spec_clamp, h]

/-- Unfolding of safety_spec_clamp for a bounded variable. -/
theorem spec_clamp_some (b : String → Option (ℚ × ℚ)) (vx : String × ℚ)
    (lohi : ℚ × ℚ) (h : b vx.1 = some lohi) :
    safety_spec_clamp b vx =
      if vx.2 < lohi.1 then (vx.1, lohi.1)
      else if lohi.2 < vx.2 then (vx.1, lohi.2) else vx := by
  simp only [safety_spec_clamp, h]

/-- Unfolding of safety_code_clamp for an unbounded variable. -/
theorem code_clamp_none (b : String → Option (ℚ × ℚ)) (vx : String × ℚ)
    (h : b vx.1 = none) : safety_code_clamp b vx = vx := by
  simp [safety_code_clamp, h]

/-- Unfolding of safety_code_clamp for a bounded variable. -/
theorem code_clamp_some (b : String → Option (ℚ × ℚ)) (vx : String × ℚ)
    (lohi : ℚ × ℚ) (h : b vx.1 = some lohi) :
    safety_code_clamp b vx =
      if vx.2 < lohi.1 ∨ lohi.2 < vx.2 then
        (vx.1, max lohi.1 (min vx.2 lohi.2)) else vx := by
  simp only [safety_code_clamp, h]

/-- Unfolding of safety_out_of_bounds for an unbounded variable. -/
theorem out_of_bounds_none (b : String → Option (ℚ × ℚ)) (vx : String × ℚ)
    (h : b vx.1 = none) : safety_out_of_bounds b vx = false := by
  simp [safety_out_of_bounds, h]

/-- Unfolding of safety_out_of_bounds for a bounded variable. -/
theorem out_of_bounds_some (b : String → Option (ℚ × ℚ)) (vx : String × ℚ)
    (lohi : ℚ × ℚ) (h : b vx.1 = some lohi) :
    safety_out_of_bounds b vx = decide (vx.2 < lohi.1 ∨ lohi.2 < vx.2) := by
  simp only [safety_out_of_bounds, h]

/-- C7 counterexample: with the inverted bound (5, 3) configured for x
and the value x = 5, SafetyController.check returns the values
unchanged yet sets emergency = true, so the claim that the emergency
flag is true only when some variable required clamping fails as stated
once inverted bounds mappings are allowed. -/
theorem c7_inverted_bounds_counterexample :
    (safety_check (fun v => if v = "x" then some (5, 3) else none)
        [("x", 5)]).1 = [("x", 5)] ∧
      (safety_check (fun v => if v = "x" then some (5, 3) else none)
        [("x", 5)]).2 = true := by
  constructor <;> rfl

/-- C7 amended: for every bounds mapping whose configured pairs satisfy
min ≤ max and every values mapping, SafetyController.check returns each
value within its bounds unchanged and replaces any value outside its
bounds by the nearest bound (the violated one), variables with no
configured bound pass through unchanged, and the returned emergency
flag is true if and only if at least one variable was out of bounds,
which (by the last conjunct) is exactly when its returned value differs
from its input. -/
theorem c7_safety_check_clamps (b : String → Option (ℚ × ℚ))
    (values : List (String × ℚ))
    (hb : ∀ v lo hi, b v = some (lo, hi) → lo ≤ hi) :
    (safety_check b values).1 = values.map (safety_spec_clamp b) ∧
    ((safety_check b values).2 = true ↔
      ∃ vx ∈ values, safety_out_of_bounds b vx = true) ∧
    (∀ vx : String × ℚ,
      safety_out_of_bounds b vx = true ↔ safety_spec_clamp b vx ≠ vx) := by
  have hpt : ∀ vx : String × ℚ,
      safety_code_clamp b vx = safety_spec_clamp b vx := by
    intro vx
    cases hob : b vx.1 with
    | none => rw [code_clamp_none b vx hob, spec_clamp_none b vx hob]
    | some lohi =>
        have hlohi : lohi.1 ≤ lohi.2 := hb vx.1 lohi.1 lohi.2 (by rw [hob])
        rw [code_clamp_some b vx lohi hob, spec_clamp_some b vx lohi hob]
        by_cases h1 : vx.2 < lohi.1
        · rw [if_pos (Or.inl h1), if_pos h1]
          have hmin : min vx.2 lohi.2 = vx.2 := min_eq_left (by linarith)
          rw [hmin, max_eq_left (by linarith)]
        · by_cases h2 : lohi.2 < vx.2
          · rw [if_pos (Or.inr h2), if_neg h1, if_pos h2]
            have hmin : min vx.2 lohi.2 = lohi.2 := min_eq_right (by linarith)
            rw [hmin, max_eq_right hlohi]
          · have hc : ¬(vx.2 < lohi.1 ∨ lohi.2 < vx.2) := by
              push_neg
              exact ⟨not_lt.mp h1, not_lt.mp h2⟩
            rw [if_neg hc, if_neg h1, if_neg h2]
  refine ⟨?_, ?_, ?_⟩
  · rw [safety_check_eq]
    exact List.map_congr_left (fun a _ => hpt a)
  · rw [safety_check_eq]
    simp [List.any_eq_true]
  · intro vx
    cases hob : b vx.1 with
    | none =>
        rw [out_of_bounds_none b vx hob, spec_clamp_none b vx hob]
        simp
    | some lohi =>
        rw [out_of_bounds_some b vx lohi hob, spec_clamp_some b vx lohi hob]
        simp only [decide_eq_true_eq]
        by_cases h1 : vx.2 < lohi.1
        · rw [if_pos h1]
          refine iff_of_true (Or.inl h1) ?_
          intro hcon
          have h2 := congrArg Prod.snd hcon
          simp only at h2
          rw [h2] at h1
          exact lt_irrefl _ h1
        · by_cases h2 : lohi.2 < vx.2
          · rw [if_neg h1, if_pos h2]
            refine iff_of_true (Or.inr h2) ?_
            intro hcon
            have h3 := congrArg Prod.snd hcon
            simp only at h3
            rw [h3] at h2
            exact lt_irrefl _ h2
          · rw [if_neg h1, if_neg h2]
            refine iff_of_false ?_ (by simp)
            rintro (ha | hb2)
            · exact absurd ha h1
            · exact absurd hb2 h2

/-- C7 witness: with T bounded to [0, 40], checking T = 50 and an
unbounded RH = 2 gives the per-entry spec clamp and an emergency flag
equivalent to some entry being out of bounds. -/
theorem c7_safety_check_clamps_witness :
    (safety_check (fun v => if v = "T" then some (0, 40) else none)
        [("T", 50), ("RH", 2)]).1 =
      [("T", 50), ("RH", 2)].map
        (safety_spec_clamp (fun v => if v = "T" then some (0, 40) else none)) ∧
    ((safety_check (fun v => if v = "T" then some (0, 40) else none)
        [("T", 50), ("RH", 2)]).2 = true ↔
      ∃ vx ∈ [(("T" : String), (50 : ℚ)), ("RH", 2)],
        safety_out_of_bounds
          (fun v => if v = "T" then some (0, 40) else none) vx = true) := by
  have h := c7_safety_check_clamps
    (fun v => if v = "T" then some (0, 40) else none)
    [("T", 50), ("RH", 2)]
    (by
      intro v lo hi hh
      simp only [] at hh
      by_cases hv : v = "T"
      · rw [if_pos hv] at hh
        rw [Option.some_inj] at hh
        have h1 : (0 : ℚ) = lo := congrArg Prod.fst hh
        have h2 : (40 : ℚ) = hi := congrArg Prod.snd hh
        rw [← h1, ← h2]
        norm_num
      · rw [if_neg hv] at hh
        exact Option.noConfusion hh)
  exact ⟨h.1, h.2.1⟩

/-- C2 counterexample: f_CO2 is not bounded to [0, 1] for every real
input: at CO2 = -1000 it returns -1, and consequently
daily_biomass_increment can be negative, here at inputs
(DLI, T, VPD, CO2) = (12, 20, 1, -1000). -/
theorem c2_f_CO2_negative_counterexample :
    f_CO2 (-1000) < 0 ∧ daily_biomass_increment 12 20 1 (-1000) < 0 := by
  have hco2 : f_CO2 (-1000) = -1 := by
    unfold f_CO2 CO2_OPT
    rw [min_eq_right (by norm_num : (-1000 : ℝ) / 1000 ≤ 1)]
    norm_num
  have hdli : f_DLI 12 = 1 := by
    unfold f_DLI DLI_OPT
    norm_num
  have ht : f_T 20 = 1 := by
    unfold f_T T_OPT T_WIDTH
    rw [show -(((20 : ℝ) - 20) ^ 2) / (2 * 5 ^ 2) = 0 by norm_num]
    rw [max_eq_left (by norm_num : (-700 : ℝ) ≤ 0)]
    exact Real.exp_zero
  have hvpd : f_VPD 1 = 1 := by
    unfold f_VPD VPD_OPT
    norm_num
  constructor
  · rw [hco2]; norm_num
  · unfold daily_biomass_increment ALPHA
    rw [hco2, hdli, ht, hvpd]
    norm_num

/-- C2 amended: f_DLI, f_T and f_VPD return values in [0, 1] for every
real input, f_CO2 returns a value in [0, 1] for every nonnegative CO2
input (which is what the simulation supplies, since the room clamps
CO2_ppm at 0), and under that same condition
daily_biomass_increment is nonnegative, so adding it to any running
biomass total never decreases the total. -/
theorem c2_response_factors_bounded (DLI T VPD CO2 : ℝ) (hCO2 : 0 ≤ CO2) :
    (0 ≤ f_DLI DLI ∧ f_DLI DLI ≤ 1) ∧
    (0 ≤ f_T T ∧ f_T T ≤ 1) ∧
    (0 ≤ f_VPD VPD ∧ f_VPD VPD ≤ 1) ∧
    (0 ≤ f_CO2 CO2 ∧ f_CO2 CO2 ≤ 1) ∧
    0 ≤ daily_biomass_increment DLI T VPD CO2 ∧
    ∀ biomass : ℝ,
      biomass ≤ biomass + daily_biomass_increment DLI T VPD CO2 := by
  have hD : 0 ≤ f_DLI DLI ∧ f_DLI DLI ≤ 1 := by
    unfold f_DLI DLI_OPT
    simp only []
    split_ifs with h1 h2
    · refine ⟨le_max_left _ _, max_le (by norm_num) ?_⟩
      rw [div_le_one (by norm_num : (0 : ℝ) < 10)]
      simpa using h1.le
    · refine ⟨le_max_left _ _, max_le (by norm_num) ?_⟩
      simp only at h2
      linarith
    · norm_num
  have hT : 0 ≤ f_T T ∧ f_T T ≤ 1 := by
    unfold f_T
    refine ⟨(Real.exp_pos _).le, Real.exp_le_one_iff.mpr ?_⟩
    refine max_le ?_ (by norm_num)
    apply div_nonpos_iff.mpr
    refine Or.inr ⟨neg_nonpos.mpr (sq_nonneg _), ?_⟩
    unfold T_WIDTH
    norm_num
  have hV : 0 ≤ f_VPD VPD ∧ f_VPD VPD ≤ 1 := by
    unfold f_VPD VPD_OPT
    simp only []
    split_ifs with h1 h2
    · refine ⟨le_max_left _ _, max_le (by norm_num) ?_⟩
      rw [div_le_one (by norm_num : (0 : ℝ) < 6 / 10)]
      simpa using h1.le
    · refine ⟨le_max_left _ _, max_le (by norm_num) ?_⟩
      simp only at h2
      linarith
    · norm_num
  have hC : 0 ≤ f_CO2 CO2 ∧ f_CO2 CO2 ≤ 1 := by
    unfold f_CO2 CO2_OPT
    exact ⟨le_min (by norm_num) (div_nonneg hCO2 (by norm_num)),
      min_le_left _ _⟩
  have hinc : 0 ≤ daily_biomass_increment DLI T VPD CO2 := by
    unfold daily_biomass_increment ALPHA
    have h1 : 0 ≤ f_DLI DLI * f_T T := mul_nonneg hD.1 hT.1
    have h2 : 0 ≤ f_DLI DLI * f_T T * f_VPD VPD := mul_nonneg h1 hV.1
    have h3 : 0 ≤ f_DLI DLI * f_T T * f_VPD VPD * f_CO2 CO2 :=
      mul_nonneg h2 hC.1
    linarith
  exact ⟨hD, hT, hV, hC, hinc, fun biomass => by linarith⟩

/-- C2 witness: at the in-range inputs (12, 20, 1, 500) the daily
increment is nonnegative, f_CO2 lies in [0, 1], and a biomass total of
30 does not decrease. -/
theorem c2_response_factors_bounded_witness :
    0 ≤ daily_biomass_increment 12 20 1 500 ∧
      (0 ≤ f_CO2 500 ∧ f_CO2 (500 : ℝ) ≤ 1) ∧
      (30 : ℝ) ≤ 30 + daily_biomass_increment 12 20 1 500 := by
  have h := c2_response_factors_bounded 12 20 1 500 (by norm_num)
  exact ⟨h.2.2.2.2.1, h.2.2.2.1, h.2.2.2.2.2 30⟩

/-- Positivity of the saturation vapor content for positive room volume
at any physical temperature (above absolute zero and away from the
singular point -237.3 of the exp argument). -/
theorem n_sat_pos (V T : ℝ) (hV : 0 < V) (hT1 : -27315 / 100 < T)
    (hT2 : T ≠ -2373 / 10) : 0 < n_sat V T := by
  unfold n_sat
  rw [if_neg]
  · apply div_pos
    · apply mul_pos
      · exact mul_pos (by norm_num) (Real.exp_pos _)
      · exact hV
    · apply mul_pos (by norm_num)
      linarith
  · push_neg
    constructor
    · intro h
      exact hT2 (by linarith)
    · intro h
      linarith

/-- Bounds satisfied by the relative humidity of any room state: the
clamp in RoomBox._RH keeps it inside [0, 1]. -/
theorem RH_mem (r : RoomBox) : 0 ≤ r.RH ∧ r.RH ≤ 1 := by
  unfold RoomBox.RH
  exact ⟨le_min (le_max_right _ _) zero_le_one, min_le_right _ _⟩

/-- The runaway-clamp pattern of RoomBox.update keeps a temperature
inside [-10, 50]: an untouched value was already there, and a clamped
one lands in [0, 40]. -/
theorem clampStep_mem (x : ℝ) :
    -10 ≤ (if x < -10 ∨ 50 < x then min (max x 0) 40 else x) ∧
      (if x < -10 ∨ 50 < x then min (max x 0) 40 else x) ≤ 50 := by
  split_ifs with h
  · constructor
    · exact le_min (le_trans (by norm_num) (le_max_right x 0)) (by norm_num)
    · exact le_trans (min_le_right _ _) (by norm_num)
  · push_neg at h
    exact ⟨h.1, h.2⟩

/-- State invariant of the room after an update: nonnegative CO2,
relative humidity in [0, 1], both temperatures in [-10, 50]. -/
def RoomInv (r : RoomBox) : Prop :=
  0 ≤ r.CO2_ppm ∧ 0 ≤ r.RH ∧ r.RH ≤ 1 ∧
    -10 ≤ r.T_air ∧ r.T_air ≤ 50 ∧ -10 ≤ r.T_nutr ∧ r.T_nutr ≤ 50

/-- A single RoomBox.update establishes the room invariant from any
prior state. -/
theorem update_room_inv (r : RoomBox) (u : UpdateIn) :
    RoomInv (r.update u) := by
  refine ⟨?_, (RH_mem _).1, (RH_mem _).2, ?_, ?_, ?_, ?_⟩
  · simp only [RoomBox.update]
    exact le_max_right _ _
  · simp only [RoomBox.update]
    exact (clampStep_mem _).1
  · simp only [RoomBox.update]
    exact (clampStep_mem _).2
  · simp only [RoomBox.update]
    exact (clampStep_mem _).1
  · simp only [RoomBox.update]
    exact (clampStep_mem _).2

/-- Folding further updates preserves the room invariant. -/
theorem update_foldl_inv (us : List UpdateIn) :
    ∀ (r : RoomBox) (u : UpdateIn),
      RoomInv (List.foldl RoomBox.update (r.update u) us) := by
  induction us with
  | nil => intro r u; simpa using update_room_inv r u
  | cons v vs ih =>
      intro r u
      simpa [List.foldl_cons] using ih (r.update u) v

/-- Room used in the C1 counterexample: defaults of the source with
T_air = T_nutr = 20 and a unit of vapor so construction keeps it. -/
noncomputable def c1Room : RoomBox := mkRoomBox 20 20 900 1

/-- Update used in the C1 counterexample: 50 kW of LED heat for one
minute with the outdoor temperature equal to the air temperature. -/
def c1Upd : UpdateIn :=
  { Q_led := 50000, Q_people := 0, Q_equip := 0, Q_HVAC_sens := 0,
    Q_HVAC_lat := 0, T_out := 20, E_canopy := some 0 }

/-- C1 counterexample: one update with finite in-range inputs (50 kW of
LED heat for one minute) drives T_air from 20 to 45 degrees C, outside
the claimed [0, 40] band, and no clamp fires because the runaway check
of the code only triggers below -10 or above 50. -/
theorem c1_temperature_band_counterexample :
    (RoomBox.update c1Room c1Upd).T_air = 45 ∧
      ¬((RoomBox.update c1Room c1Upd).T_air ≤ 40) := by
  have hroom : c1Room = ⟨20, 20, 900, 1, 100, 200, 120000, 120, 18,
      2 / 10, 836, 2⟩ := by
    unfold c1Room mkRoomBox
    rw [if_neg]
    norm_num
  have hT : (RoomBox.update c1Room c1Upd).T_air = 45 := by
    rw [hroom]
    simp only [RoomBox.update, c1Upd]
    norm_num
  exact ⟨hT, by rw [hT]; norm_num⟩

/-- C1 amended: for every RoomBox with positive volume, heat capacities
and vapor molar mass (outside that domain the Python code raises
instead of returning), nonnegative CO2, and every sequence of updates
with nonnegative PPFD, after each update the state satisfies
CO2_ppm ≥ 0, relative humidity in [0, 1], and both temperatures inside
[-10, 50] degrees C: a temperature driven outside [-10, 50] (the band
the runaway check of the code actually uses, not [0, 40]) is clamped to
the nearest bound of [0, 40]. -/
theorem c1_room_update_invariant (r : RoomBox) (u : UpdateIn)
    (us : List UpdateIn) (hV : 0 < r.V_air) (hCair : 0 < r.C_air)
    (hCnutr : 0 < r.C_nutr) (hMv : 0 < r.M_v) (hCO2 : 0 ≤ r.CO2_ppm)
    (hPPFD : 0 ≤ u.PPFD) (hus : ∀ u2 ∈ us, 0 ≤ u2.PPFD) :
    RoomInv (r.update u) ∧
      RoomInv (List.foldl RoomBox.update (r.update u) us) :=
  ⟨update_room_inv r u, update_foldl_inv us r u⟩

/-- C1 witness: the invariant holds after updating the default room
with the concrete heat pulse of the counterexample (the run that ends
at T_air = 45, inside the actual [-10, 50] band). -/
theorem c1_room_update_invariant_witness :
    RoomInv (RoomBox.update c1Room c1Upd) ∧
      RoomInv (List.foldl RoomBox.update (RoomBox.update c1Room c1Upd) []) :=
  c1_room_update_invariant c1Room c1Upd []
    (by norm_num [c1Room, mkRoomBox])
    (by norm_num [c1Room, mkRoomBox])
    (by norm_num [c1Room, mkRoomBox])
    (by norm_num [c1Room, mkRoomBox])
    (by norm_num [c1Room, mkRoomBox])
    (by norm_num [c1Upd])
    (by intro u2 h; exact absurd h (List.not_mem_nil u2))

/-- C10: constructing a RoomBox with the n_vapor argument equal to 0
(its default) initializes the vapor content to 0.7 times the
saturation vapor moles at the initial air temperature, so for a
positive room volume and a physical initial temperature the initial
relative humidity is exactly 0.7; a RoomBox constructed with a
non-zero n_vapor keeps that value unchanged. -/
theorem c10_initial_humidity (T_air T_nutr CO2_ppm n_vapor V_air UA
    C_air M_air M_v V_nutr C_nutr g_c : ℝ) :
    (n_vapor = 0 →
      (mkRoomBox T_air T_nutr CO2_ppm n_vapor V_air UA C_air M_air M_v
        V_nutr C_nutr g_c).n_vapor = (7 / 10) * n_sat V_air T_air) ∧
    (n_vapor = 0 → 0 < V_air → -27315 / 100 < T_air →
      T_air ≠ -2373 / 10 →
      (mkRoomBox T_air T_nutr CO2_ppm n_vapor V_air UA C_air M_air M_v
        V_nutr C_nutr g_c).RH = 7 / 10) ∧
    (n_vapor ≠ 0 →
      (mkRoomBox T_air T_nutr CO2_ppm n_vapor V_air UA C_air M_air M_v
        V_nutr C_nutr g_c).n_vapor = n_vapor) := by
  refine ⟨?_, ?_, ?_⟩
  · intro h
    simp only [mkRoomBox]
    rw [if_pos h]
  · intro h hV hT1 hT2
    have hns : 0 < n_sat V_air T_air := n_sat_pos V_air T_air hV hT1 hT2
    simp only [mkRoomBox]
    rw [if_pos h]
    unfold RoomBox.RH
    simp only []
    rw [mul_div_assoc, div_self hns.ne', mul_one]
    rw [max_eq_left (by norm_num : (0 : ℝ) ≤ 7 / 10)]
    exact min_eq_left (by norm_num)
  · intro h
    simp only [mkRoomBox]
    rw [if_neg h]

/-- C10 witness: the default-constructed room at 20 degrees C has
relative humidity exactly 0.7, and constructing with n_vapor = 5 keeps
the 5. -/
theorem c10_initial_humidity_witness :
    (mkRoomBox 20 20 900 0 100 200 120000 120 18 (2 / 10) 836 2).RH =
        7 / 10 ∧
      (mkRoomBox 20 20 900 5 100 200 120000 120 18 (2 / 10) 836 2).n_vapor
        = 5 := by
  have h0 := c10_initial_humidity 20 20 900 0 100 200 120000 120 18
    (2 / 10) 836 2
  have h5 := c10_initial_humidity 20 20 900 5 100 200 120000 120 18
    (2 / 10) 836 2
  exact ⟨h0.2.1 rfl (by norm_num) (by norm_num) (by norm_num),
    h5.2.2 (by norm_num)⟩

/-- Configuration of the C8 witness run, with the module-level
constants of src/pfal_sim/sim/sim_runner.py: the 900 μmol fixture at
efficacy 2.4 over 1.2 m², the B/G/R/FR spectrum, setpoint 20 C, DLI
target 12 over a 13 h window, and 1-minute steps. -/
noncomputable def c8Cfg : SimConfig :=
  { fixture :=
      { ppf_max := 900, ppe := 24 / 10, area_m2 := 12 / 10,
        spectrum := [("B", 1 / 10), ("G", 2 / 10), ("R", 6 / 10),
          ("FR", 1 / 10)],
        driver_loss := 4 / 100, thermal_derate := 0,
        wall_reflectance := 85 / 100, beam_spread_deg := 120 },
    LAI := 1, T_set := 20, DLI_target := 12, ppfd_minmax := (120, 260),
    light_hours := 13, dt_min := 1 }

/-- Initial state of the C8 witness run: the default room at 20 C,
nothing accumulated, no records, step 0. -/
noncomputable def c8State : SimState :=
  { room := mkRoomBox 20 20, ppfd_series := [], DLI_so_far := 0,
    biomass_fw := 0, records := [], step := 0 }

/-- C8: the simulation loop is deterministic in the initial state and
configuration: two runs from the same initial RoomState (and loop
accumulators), the same fixture configuration and controller setpoints,
and the same step count produce the same result, in particular
identical sequences of logged records and the same final biomass
total.  The embedded loop body is a pure function, so the program has
no other input: no randomness, clock or external channel feeds the
computation. -/
theorem c8_simulation_deterministic (cfg1 cfg2 : SimConfig)
    (st1 st2 : SimState) (n1 n2 : ℕ) (hcfg : cfg1 = cfg2)
    (hst : st1 = st2) (hn : n1 = n2) :
    runSim cfg1 st1 n1 = runSim cfg2 st2 n2 ∧
      (runSim cfg1 st1 n1).map SimState.records =
        (runSim cfg2 st2 n2).map SimState.records ∧
      (runSim cfg1 st1 n1).map SimState.biomass_fw =
        (runSim cfg2 st2 n2).map SimState.biomass_fw := by
  subst hcfg
  subst hst
  subst hn
  exact ⟨rfl, rfl, rfl⟩

/-- C8 witness: re-running three steps of the source configuration from
the default initial state reproduces the same records and biomass. -/
theorem c8_simulation_deterministic_witness :
    runSim c8Cfg c8State 3 = runSim c8Cfg c8State 3 ∧
      (runSim c8Cfg c8State 3).map SimState.records =
        (runSim c8Cfg c8State 3).map SimState.records :=
  ⟨(c8_simulation_deterministic c8Cfg c8Cfg c8State c8State 3 3
      rfl rfl rfl).1,
    (c8_simulation_deterministic c8Cfg c8Cfg c8State c8State 3 3
      rfl rfl rfl).2.1⟩

end PfalSim
